/-
  Spec2Proof — a shallow embedding of the call-center dashboard's metrics
  computation engine (`MetricsCalculator.calculateDetailedMetrics` in
  src/utils/metricsCalculator.ts, and the inline metrics computation of
  src/components/Dashboard.tsx), with theorems settling the frozen claims
  about it.

  Modelling conventions:
  - JS numbers are modelled as exact rationals (ℚ).  Every division the
    source guards with a positivity test is embedded as a guarded ℚ
    division; the two divisions the source leaves unguarded are embedded
    through `jsDiv`, which returns `none` exactly when JS would produce a
    non-finite value (NaN or ±Infinity).
  - A row is a record of the string-valued fields the source reads.  A
    field that is missing in JS (`undefined`) is modelled as the empty
    string: both are falsy, both fail every `=== 'YES'`-style comparison,
    both make `parseInt` return NaN, and both trigger the
    `|| '0:00:00.000'` defaults, so the two are observationally equal on
    every code path of the source.
  - `parseInt` / `parseFloat` are modelled on their decimal forms
    (optional sign, leading digits, for `parseFloat` an optional fraction);
    no claim depends on the hexadecimal or exponent forms.
-/
import Mathlib

/-! ### Models of the JavaScript primitives the source uses -/

/-- Value of a list of decimal digit characters. -/
def digitsVal (ds : List Char) : ℕ :=
  ds.foldl (fun n c => n * 10 + (c.toNat - '0'.toNat)) 0

/-- Whitespace-trimming on character lists (JS `String.prototype.trim`,
    stated over `List Char` so that proofs can evaluate it by kernel
    reduction). -/
def jsTrimList (cs : List Char) : List Char :=
  ((cs.dropWhile Char.isWhitespace).reverse.dropWhile Char.isWhitespace).reverse

/-- Model of JS `s.trim()`. -/
def jsTrim (s : String) : String :=
  String.mk (jsTrimList s.toList)

/-- Splitting a character list at every occurrence of a separator
    character (JS `String.prototype.split` with a one-character
    separator): `"" ↦ [""]`, `":" ↦ ["", ""]`, `"a:b" ↦ ["a", "b"]`. -/
def splitOnChar (sep : Char) : List Char → List (List Char)
  | [] => [[]]
  | c :: rest =>
      match splitOnChar sep rest with
      | [] => if c = sep then [[], []] else [[c]]
      | h :: t => if c = sep then [] :: h :: t else (c :: h) :: t

/-- Model of JS `s.split(':')`. -/
def jsSplitColon (s : String) : List String :=
  (splitOnChar ':' s.toList).map String.mk

/-- Unsigned decimal parse of a character list: the longest leading digit
    run, `none` when there is no leading digit (JS NaN). -/
def parseDigitsPrefix (cs : List Char) : Option ℕ :=
  let ds := cs.takeWhile Char.isDigit
  if ds.isEmpty then none else some (digitsVal ds)

/-- Model of JS `parseInt(s)` (decimal): skip surrounding whitespace, read
    an optional sign and then the longest run of decimal digits, ignoring
    any trailing junk; `none` models the NaN result when no digit is
    found. -/
def jsParseInt (s : String) : Option ℤ :=
  match jsTrimList s.toList with
  | '-' :: rest => (parseDigitsPrefix rest).map fun n => -(n : ℤ)
  | '+' :: rest => (parseDigitsPrefix rest).map fun n => (n : ℤ)
  | cs => (parseDigitsPrefix cs).map fun n => (n : ℤ)

/-- Unsigned decimal-fraction parse of a character list: integer digits,
    optional `.` followed by fraction digits; `none` when no digit at all
    is present (JS NaN, as in `parseFloat(".")` or `parseFloat("abc")`). -/
def parseFracPrefix (cs : List Char) : Option ℚ :=
  let intDs := cs.takeWhile Char.isDigit
  let after := cs.drop intDs.length
  let fracDs :=
    match after with
    | '.' :: more => more.takeWhile Char.isDigit
    | _ => []
  if intDs.isEmpty && fracDs.isEmpty then none
  else some ((digitsVal intDs : ℚ) + (digitsVal fracDs : ℚ) / (10 : ℚ) ^ fracDs.length)

/-- Model of JS `parseFloat(s)` (decimal): optional sign, integer digits,
    optional fraction. -/
def jsParseFloat (s : String) : Option ℚ :=
  match jsTrimList s.toList with
  | '-' :: rest => (parseFracPrefix rest).map fun q => -q
  | '+' :: rest => parseFracPrefix rest
  | cs => parseFracPrefix cs

/-- JS division restricted to finite results: `a / b` is finite iff `b ≠ 0`
    (JS gives `NaN` for `0/0` and `±Infinity` for `x/0`, all modelled as
    `none`). -/
def jsDiv (a b : ℚ) : Option ℚ :=
  if b = 0 then none else some (a / b)

/-- Model of JS `Math.round`: round half toward positive infinity. -/
def jsRound (q : ℚ) : ℤ := ⌊q + 1 / 2⌋

/-- Model of JS `String.prototype.includes`. -/
def strContains (s pat : String) : Bool :=
  s.toList.tails.any fun t => pat.toList.isPrefixOf t

/-- Model of the source's pervasive `field || '0:00:00.000'` default for
    duration fields (missing/empty strings are falsy in JS). -/
def orZeroTime (s : String) : String :=
  if s = "" then "0:00:00.000" else s

/-! ### Row records — the string fields the source reads from each table -/

/-- One agent-performance row (fields `Agent Name`, `Answered`,
    `Transferred` as read by the calculator). -/
structure PerfRow where
  agentName : String := ""
  answered : String := ""
  transferred : String := ""
  deriving DecidableEq

/-- One agent-status row (fields `Agent Name`, `Logged In`, `On Queue`,
    `Break`, `Meal`, `Away`, `Not Responding`, `Off Queue`). -/
structure StatusRow where
  agentName : String := ""
  loggedIn : String := ""
  onQueue : String := ""
  breakTime : String := ""
  meal : String := ""
  away : String := ""
  notResponding : String := ""
  offQueue : String := ""
  deriving DecidableEq

/-- One interaction row (fields `Initial Direction`, `Queue`, `Abandoned`,
    `Total Queue`, `Total Handle`, `Total ACW`). -/
structure InteractionRow where
  initialDirection : String := ""
  queue : String := ""
  abandoned : String := ""
  totalQueue : String := ""
  totalHandle : String := ""
  totalACW : String := ""
  deriving DecidableEq

namespace MetricsCalculator

/-- `parseTimeToMinutes` (metricsCalculator.ts lines 23–37): empty or
    all-whitespace input gives 0; a trimmed string splitting on `:` into
    exactly three parts gives `hours*60 + minutes + seconds/60` with each
    component read by `parseInt`/`parseFloat` and defaulted to 0 on a
    failed parse (the `|| 0` fallbacks); any other shape gives 0. -/
def parseTimeToMinutes (timeStr : String) : ℚ :=
  if timeStr = "" then 0
  else if jsTrim timeStr = "" then 0
  else
    match jsSplitColon (jsTrim timeStr) with
    | [h, m, s] =>
        (((jsParseInt h).getD 0 : ℤ) : ℚ) * 60 + (((jsParseInt m).getD 0 : ℤ) : ℚ)
          + ((jsParseFloat s).getD 0) / 60
    | _ => 0

/-- `parseTimeToSeconds` (lines 39–41). -/
def parseTimeToSeconds (timeStr : String) : ℚ :=
  parseTimeToMinutes timeStr * 60

/-! ### Row filters (calculateDetailedMetrics, step 1, lines 54–68) -/

/-- The per-row test of line 55: `agent.Answered` is truthy, `parseInt`
    of it is not NaN, and the parsed value is `> 0`. -/
def hasAnsweredPos (agent : PerfRow) : Bool :=
  agent.answered != "" &&
    (match jsParseInt agent.answered with
     | some n => decide (0 < n)
     | none => false)

/-- Line 56: `!agent['Agent Name']?.includes('Template')`. -/
def notTemplatePerf (agent : PerfRow) : Bool :=
  !(strContains agent.agentName "Template")

/-- `validAgentPerformance` (lines 54–58). -/
def validAgentPerformance (agentPerformance : List PerfRow) : List PerfRow :=
  agentPerformance.filter fun agent => hasAnsweredPos agent && notTemplatePerf agent

/-- `validAgentStatus` (lines 60–64): `Logged In` truthy and non-blank
    after trimming, and the name does not mark a template row. -/
def validAgentStatus (agentStatus : List StatusRow) : List StatusRow :=
  agentStatus.filter fun agent =>
    (agent.loggedIn != "" && jsTrim agent.loggedIn != "")
      && !(strContains agent.agentName "Template")

/-- `validInteractions` (lines 66–68): both `Initial Direction` and
    `Queue` are truthy. -/
def validInteractions (trainingInteractions : List InteractionRow) : List InteractionRow :=
  trainingInteractions.filter fun interaction =>
    interaction.initialDirection != "" && interaction.queue != ""

/-- `inboundCalls` (line 71). -/
def inboundCalls (trainingInteractions : List InteractionRow) : List InteractionRow :=
  (validInteractions trainingInteractions).filter fun call =>
    call.initialDirection == "Inbound"

/-! ### Cross-source reconciliation (step 2, lines 76–118) -/

/-- Line 76–77: `reduce((sum, agent) => sum + (parseInt(agent.Answered) || 0), 0)`
    over the valid performance rows. -/
def agentPerformanceTotal (agentPerformance : List PerfRow) : ℤ :=
  ((validAgentPerformance agentPerformance).map fun agent =>
    (jsParseInt agent.answered).getD 0).sum

/-- Lines 79–80: count of valid interactions with `Abandoned === 'NO'`. -/
def interactionsAnsweredTotal (trainingInteractions : List InteractionRow) : ℕ :=
  ((validInteractions trainingInteractions).filter fun call =>
    call.abandoned == "NO").length

/-- Line 82: `Math.abs(agentPerformanceTotal - interactionsAnsweredTotal)`. -/
def callDiscrepancy (agentPerformance : List PerfRow)
    (trainingInteractions : List InteractionRow) : ℤ :=
  |agentPerformanceTotal agentPerformance
    - (interactionsAnsweredTotal trainingInteractions : ℤ)|

/-- Lines 83–84: the guarded discrepancy ratio. -/
def discrepancyPercent (agentPerformance : List PerfRow)
    (trainingInteractions : List InteractionRow) : ℚ :=
  if 0 < agentPerformanceTotal agentPerformance then
    ((callDiscrepancy agentPerformance trainingInteractions : ℚ)
      / (agentPerformanceTotal agentPerformance : ℚ)) * 100
  else 0

/-- Severity of a reconciliation finding, as rendered by the trace's
    `result` field (lines 115–117): `>30%` urgent/critical, `>5%`
    data-integrity warning, otherwise acceptable variance. -/
inductive Severity where
  | acceptable
  | warning
  | critical
  deriving DecidableEq

/-- The three-way classification of lines 115–117. -/
def reconciliationSeverity (dp : ℚ) : Severity :=
  if 30 < dp then .critical
  else if 5 < dp then .warning
  else .acceptable

/-- Line 108: `validAgentStatus.length - validAgentPerformance.length`. -/
def missingAgents (agentPerformance : List PerfRow)
    (agentStatus : List StatusRow) : ℤ :=
  ((validAgentStatus agentStatus).length : ℤ)
    - ((validAgentPerformance agentPerformance).length : ℤ)

/-- Line 109: `Math.round(callDiscrepancy / missingAgents)` — an
    *unguarded* JS division, `none` when `missingAgents = 0` (JS `NaN`
    or `±Infinity`). -/
def possibleCallsPerMissingAgent (agentPerformance : List PerfRow)
    (agentStatus : List StatusRow)
    (trainingInteractions : List InteractionRow) : Option ℤ :=
  (jsDiv (callDiscrepancy agentPerformance trainingInteractions : ℚ)
    (missingAgents agentPerformance agentStatus : ℚ)).map jsRound

/-- The numeric content of the `dataReconciliation` calculation trace
    (lines 94–118) that the claims refer to. -/
structure ReconciliationValues where
  agentPerformanceCallTotal : ℤ
  interactionsAnsweredTotalVal : ℕ
  callDiscrepancyVal : ℤ
  discrepancyPercentVal : ℚ
  missingAgentsVal : ℤ
  possibleCallsPerMissingAgentVal : Option ℤ
  severity : Severity
  deriving DecidableEq

/-! ### Total Calls (step 3, lines 136–159) -/

/-- Lines 136–139 — the same reduce as `agentPerformanceTotal`. -/
def totalCallsFromAgentPerformance (agentPerformance : List PerfRow) : ℤ :=
  agentPerformanceTotal agentPerformance

/-- Line 141 — the same count as `interactionsAnsweredTotal`. -/
def totalCallsFromInteractions (trainingInteractions : List InteractionRow) : ℕ :=
  interactionsAnsweredTotal trainingInteractions

/-! ### Transfer Rate (step 4, lines 162–203) -/

/-- Lines 162–164. -/
def totalTransferred (agentPerformance : List PerfRow) : ℤ :=
  ((validAgentPerformance agentPerformance).map fun agent =>
    (jsParseInt agent.transferred).getD 0).sum

/-- Lines 171–172: transfer rate against the performance-table
    denominator, guarded. -/
def agentPerformanceTransferRate (agentPerformance : List PerfRow) : ℚ :=
  if 0 < totalCallsFromAgentPerformance agentPerformance then
    ((totalTransferred agentPerformance : ℚ)
      / (totalCallsFromAgentPerformance agentPerformance : ℚ)) * 100
  else 0

/-- Line 174: transfer rate against the interaction-derived denominator,
    guarded. -/
def mixedSourceTransferRate (agentPerformance : List PerfRow)
    (trainingInteractions : List InteractionRow) : ℚ :=
  if 0 < totalCallsFromInteractions trainingInteractions then
    ((totalTransferred agentPerformance : ℚ)
      / (totalCallsFromInteractions trainingInteractions : ℚ)) * 100
  else 0

/-- Lines 182/192: `(apRate - mixedRate) / apRate * 100` — an *unguarded*
    JS division, `none` when the agent-performance rate is 0. -/
def potentialUnderstatement (agentPerformance : List PerfRow)
    (trainingInteractions : List InteractionRow) : Option ℚ :=
  (jsDiv (agentPerformanceTransferRate agentPerformance
            - mixedSourceTransferRate agentPerformance trainingInteractions)
    (agentPerformanceTransferRate agentPerformance)).map (· * 100)

/-- The numeric content of the `transferRate` calculation trace
    (lines 184–203) that the claims refer to. -/
structure TransferRateValues where
  totalTransferredVal : ℤ
  reportedRate : ℚ
  agentPerformanceRate : ℚ
  mixedSourceRate : ℚ
  potentialUnderstatementVal : Option ℚ
  deriving DecidableEq

/-! ### Abandonment Rate (step 5, lines 205–221) -/

/-- Line 206. -/
def abandonedCalls (trainingInteractions : List InteractionRow) : List InteractionRow :=
  (inboundCalls trainingInteractions).filter fun call => call.abandoned == "YES"

/-- Line 207: guarded ratio over inbound interactions only. -/
def abandonmentRate (trainingInteractions : List InteractionRow) : ℚ :=
  if 0 < (inboundCalls trainingInteractions).length then
    (((abandonedCalls trainingInteractions).length : ℚ)
      / ((inboundCalls trainingInteractions).length : ℚ)) * 100
  else 0

/-! ### Average Speed of Answer and Average Handle Time (steps 6–7,
    lines 223–272) -/

/-- Line 224: inbound interactions with `Abandoned === 'NO'`. -/
def answeredInbound (trainingInteractions : List InteractionRow) : List InteractionRow :=
  (inboundCalls trainingInteractions).filter fun call => call.abandoned == "NO"

/-- Lines 228–232: accumulated queue wait over answered inbound calls. -/
def totalQueueTime (trainingInteractions : List InteractionRow) : ℚ :=
  ((answeredInbound trainingInteractions).map fun call =>
    parseTimeToMinutes (orZeroTime call.totalQueue)).sum

/-- Line 234. -/
def avgSpeedOfAnswer (trainingInteractions : List InteractionRow) : ℚ :=
  if 0 < (answeredInbound trainingInteractions).length then
    totalQueueTime trainingInteractions
      / ((answeredInbound trainingInteractions).length : ℚ)
  else 0

/-- Lines 252–258: accumulated handle + ACW time over answered inbound
    calls. -/
def totalHandleTime (trainingInteractions : List InteractionRow) : ℚ :=
  ((answeredInbound trainingInteractions).map fun call =>
    parseTimeToMinutes (orZeroTime call.totalHandle)
      + parseTimeToMinutes (orZeroTime call.totalACW)).sum

/-- Line 260. -/
def avgHandleTime (trainingInteractions : List InteractionRow) : ℚ :=
  if 0 < (answeredInbound trainingInteractions).length then
    totalHandleTime trainingInteractions
      / ((answeredInbound trainingInteractions).length : ℚ)
  else 0

/-! ### Utilization and shrinkage (step 8, lines 274–344) -/

/-- The per-status-row duration sums of lines 291–306, one for each
    duration field, each read through the `|| '0:00:00.000'` default. -/
def statusFieldTotal (field : StatusRow → String) (agentStatus : List StatusRow) : ℚ :=
  ((validAgentStatus agentStatus).map fun agent =>
    parseTimeToMinutes (orZeroTime (field agent))).sum

def totalLoggedTime (agentStatus : List StatusRow) : ℚ :=
  statusFieldTotal (·.loggedIn) agentStatus

def totalOnQueueTime (agentStatus : List StatusRow) : ℚ :=
  statusFieldTotal (·.onQueue) agentStatus

def totalBreakTime (agentStatus : List StatusRow) : ℚ :=
  statusFieldTotal (·.breakTime) agentStatus

def totalMealTime (agentStatus : List StatusRow) : ℚ :=
  statusFieldTotal (·.meal) agentStatus

def totalAwayTime (agentStatus : List StatusRow) : ℚ :=
  statusFieldTotal (·.away) agentStatus

def totalNotRespondingTime (agentStatus : List StatusRow) : ℚ :=
  statusFieldTotal (·.notResponding) agentStatus

def totalOffQueueTime (agentStatus : List StatusRow) : ℚ :=
  statusFieldTotal (·.offQueue) agentStatus

/-- Line 330: all valid interactions with `Abandoned === 'NO'`. -/
def allAnsweredCalls (trainingInteractions : List InteractionRow) : List InteractionRow :=
  (validInteractions trainingInteractions).filter fun call => call.abandoned == "NO"

/-- Lines 331–336: productive handle + ACW time over all answered
    interactions. -/
def totalProductiveTime (trainingInteractions : List InteractionRow) : ℚ :=
  ((allAnsweredCalls trainingInteractions).map fun call =>
    parseTimeToMinutes (orZeroTime call.totalHandle)
      + parseTimeToMinutes (orZeroTime call.totalACW)).sum

/-- Line 338. -/
def productiveUtilization (agentStatus : List StatusRow)
    (trainingInteractions : List InteractionRow) : ℚ :=
  if 0 < totalLoggedTime agentStatus then
    (totalProductiveTime trainingInteractions / totalLoggedTime agentStatus) * 100
  else 0

/-- Line 339. -/
def onQueueUtilization (agentStatus : List StatusRow) : ℚ :=
  if 0 < totalLoggedTime agentStatus then
    (totalOnQueueTime agentStatus / totalLoggedTime agentStatus) * 100
  else 0

/-- Lines 342–343. -/
def totalShrinkageTime (agentStatus : List StatusRow) : ℚ :=
  totalBreakTime agentStatus + totalMealTime agentStatus + totalAwayTime agentStatus
    + totalNotRespondingTime agentStatus + totalOffQueueTime agentStatus

/-- Line 344. -/
def shrinkage (agentStatus : List StatusRow) : ℚ :=
  if 0 < totalLoggedTime agentStatus then
    (totalShrinkageTime agentStatus / totalLoggedTime agentStatus) * 100
  else 0

/-! ### The assembled report (lines 462–472 plus the calculation traces) -/

/-- The `DetailedMetrics` report: the eight KPI values of the returned
    object together with the numeric parts of the two calculation traces
    the claims reason about. -/
structure DetailedMetrics where
  totalCalls : ℕ
  transferRate : ℚ
  productiveUtilization : ℚ
  onQueueUtilization : ℚ
  avgSpeedOfAnswer : ℚ
  abandonmentRate : ℚ
  avgHandleTime : ℚ
  shrinkage : ℚ
  dataReconciliation : ReconciliationValues
  transferRateDetails : TransferRateValues
  deriving DecidableEq

/-- `calculateDetailedMetrics` (lines 43–473): filter each table once,
    derive every KPI and the reconciliation/transfer traces from the
    filtered row sets, and package the report.  `totalCalls` uses the
    interaction-derived count (line 144) and `transferRate` the
    agent-performance-based rate (line 177). -/
def calculateDetailedMetrics (agentPerformance : List PerfRow)
    (agentStatus : List StatusRow)
    (trainingInteractions : List InteractionRow) : DetailedMetrics :=
  { totalCalls := totalCallsFromInteractions trainingInteractions
    transferRate := agentPerformanceTransferRate agentPerformance
    productiveUtilization := productiveUtilization agentStatus trainingInteractions
    onQueueUtilization := onQueueUtilization agentStatus
    avgSpeedOfAnswer := avgSpeedOfAnswer trainingInteractions
    abandonmentRate := abandonmentRate trainingInteractions
    avgHandleTime := avgHandleTime trainingInteractions
    shrinkage := shrinkage agentStatus
    dataReconciliation :=
      { agentPerformanceCallTotal := agentPerformanceTotal agentPerformance
        interactionsAnsweredTotalVal := interactionsAnsweredTotal trainingInteractions
        callDiscrepancyVal := callDiscrepancy agentPerformance trainingInteractions
        discrepancyPercentVal := discrepancyPercent agentPerformance trainingInteractions
        missingAgentsVal := missingAgents agentPerformance agentStatus
        possibleCallsPerMissingAgentVal :=
          possibleCallsPerMissingAgent agentPerformance agentStatus trainingInteractions
        severity :=
          reconciliationSeverity (discrepancyPercent agentPerformance trainingInteractions) }
    transferRateDetails :=
      { totalTransferredVal := totalTransferred agentPerformance
        reportedRate := agentPerformanceTransferRate agentPerformance
        agentPerformanceRate := agentPerformanceTransferRate agentPerformance
        mixedSourceRate := mixedSourceTransferRate agentPerformance trainingInteractions
        potentialUnderstatementVal :=
          potentialUnderstatement agentPerformance trainingInteractions } }

end MetricsCalculator

/-! ### The Dashboard component's inline metrics (Dashboard.tsx, lines 36–209) -/

namespace Dashboard

/-- Dashboard.tsx lines 48–50: the component's own interaction filter
    keeps a row when `Initial Direction` is truthy — it does *not*
    require `Queue`. -/
def validInteractions (trainingInteractions : List InteractionRow) : List InteractionRow :=
  trainingInteractions.filter fun interaction => interaction.initialDirection != ""

/-- Lines 79–81. -/
def inboundCalls (trainingInteractions : List InteractionRow) : List InteractionRow :=
  (validInteractions trainingInteractions).filter fun call =>
    call.initialDirection == "Inbound"

/-- Lines 82–84. -/
def abandonedCalls (trainingInteractions : List InteractionRow) : List InteractionRow :=
  (inboundCalls trainingInteractions).filter fun call => call.abandoned == "YES"

/-- Lines 85–86: the component's own abandonment rate, guarded. -/
def abandonmentRate (trainingInteractions : List InteractionRow) : ℚ :=
  if 0 < (inboundCalls trainingInteractions).length then
    (((abandonedCalls trainingInteractions).length : ℚ)
      / ((inboundCalls trainingInteractions).length : ℚ)) * 100
  else 0

end Dashboard

/-! ### Helper lemmas -/

/-- Splitting a list's length by two pointwise-complementary Boolean
    predicates. -/
theorem length_filter_add_length_filter {α : Type} (p q : α → Bool) :
    ∀ l : List α, (∀ x ∈ l, p x = !q x) →
      (l.filter p).length + (l.filter q).length = l.length := by
  intro l
  induction l with
  | nil => intro _; simp
  | cons x xs ih =>
      intro h
      have hx := h x (List.mem_cons_self x xs)
      have hxs : ∀ y ∈ xs, p y = !q y := fun y hy => h y (List.mem_cons_of_mem x hy)
      have hrec := ih hxs
      cases hq : q x with
      | false =>
          have hp : p x = true := by rw [hx, hq]; rfl
          simp [List.filter_cons, hp, hq]
          omega
      | true =>
          have hp : p x = false := by rw [hx, hq]; rfl
          simp [List.filter_cons, hp, hq]
          omega

/-- A row passing the line-55 test has a positive parsed `Answered`. -/
theorem hasAnsweredPos_parse {r : PerfRow}
    (h : MetricsCalculator.hasAnsweredPos r = true) :
    0 < (jsParseInt r.answered).getD 0 := by
  unfold MetricsCalculator.hasAnsweredPos at h
  rw [Bool.and_eq_true] at h
  obtain ⟨-, h2⟩ := h
  cases hp : jsParseInt r.answered with
  | none => rw [hp] at h2; simp at h2
  | some n => rw [hp] at h2; simp at h2 ⊢; exact h2

/-- The performance-table answered total is a sum of positive parsed
    counts, hence nonnegative. -/
theorem agentPerformanceTotal_nonneg (agentPerformance : List PerfRow) :
    0 ≤ MetricsCalculator.agentPerformanceTotal agentPerformance := by
  unfold MetricsCalculator.agentPerformanceTotal
  apply List.sum_nonneg
  intro x hx
  rw [List.mem_map] at hx
  obtain ⟨r, hr, hrx⟩ := hx
  rw [MetricsCalculator.validAgentPerformance, List.mem_filter] at hr
  obtain ⟨-, hvalid⟩ := hr
  rw [Bool.and_eq_true] at hvalid
  have := hasAnsweredPos_parse hvalid.1
  omega

/-! ### Claim C4 — the duration parser -/

/-- C4: the duration parser is a total function (it is a Lean `def`, so
    deterministic and never failing by construction); it returns 0 for the
    empty string (missing values are modelled as the empty string), for
    the sentinel `"0:00:00.000"`, and for any string that does not split
    into exactly three colon-separated parts; and on a three-part split
    each component contributes its parsed value with 0 substituted for a
    failed (non-numeric) parse, rather than aborting.  `parseTimeToSeconds`
    is the minutes parser scaled by 60. -/
theorem c4_parse_duration :
    MetricsCalculator.parseTimeToMinutes "" = 0 ∧
    MetricsCalculator.parseTimeToMinutes "0:00:00.000" = 0 ∧
    (∀ s : String, (jsSplitColon (jsTrim s)).length ≠ 3 →
      MetricsCalculator.parseTimeToMinutes s = 0) ∧
    (∀ s a b c : String, jsSplitColon (jsTrim s) = [a, b, c] → jsTrim s ≠ "" →
      MetricsCalculator.parseTimeToMinutes s =
        (((jsParseInt a).getD 0 : ℤ) : ℚ) * 60 + (((jsParseInt b).getD 0 : ℤ) : ℚ)
          + ((jsParseFloat c).getD 0) / 60) ∧
    (∀ s : String, MetricsCalculator.parseTimeToSeconds s =
      MetricsCalculator.parseTimeToMinutes s * 60) := by
  refine ⟨by with_unfolding_all decide, by with_unfolding_all decide, ?_, ?_, fun s => rfl⟩
  · intro s h
    by_cases h1 : s = ""
    · simp [MetricsCalculator.parseTimeToMinutes, h1]
    by_cases h2 : jsTrim s = ""
    · simp [MetricsCalculator.parseTimeToMinutes, h1, h2]
    simp only [MetricsCalculator.parseTimeToMinutes, if_neg h1, if_neg h2]
    split
    · rename_i a b c heq; rw [heq] at h; simp at h
    · rfl
  · intro s a b c hsplit hne
    have h1 : s ≠ "" := by
      intro hs
      apply hne
      rw [hs]
      decide
    simp only [MetricsCalculator.parseTimeToMinutes, if_neg h1, if_neg hne, hsplit]

/-- Witness for C4: a two-part string parses to 0, and a three-part
    string with a non-numeric middle component contributes 0 for that
    component only. -/
theorem c4_witness :
    MetricsCalculator.parseTimeToMinutes "1:2" = 0 ∧
    MetricsCalculator.parseTimeToMinutes "1:xx:30" =
      (((jsParseInt "1").getD 0 : ℤ) : ℚ) * 60 + (((jsParseInt "xx").getD 0 : ℤ) : ℚ)
        + ((jsParseFloat "30").getD 0) / 60 :=
  ⟨c4_parse_duration.2.2.1 "1:2" (by decide),
   c4_parse_duration.2.2.2.1 "1:xx:30" "1" "xx" "30" (by decide) (by decide)⟩

/-! ### Claim C5 — the division-by-zero policy -/

/-- C5 is violated by the code: on empty input tables the reconciliation
    trace's `possibleCallsPerMissingAgent` figure is
    `Math.round(0 / (0 - 0))`, i.e. `Math.round(NaN)` (modelled `none`),
    and the transfer-rate trace's `potentialUnderstatement` figure is
    `(0 - 0) / 0 * 100`, also NaN — neither evaluates to 0 as the stated
    division-by-zero policy requires.  Every other division in the
    function is guarded, so the spec's policy is the evident intent and
    the two unguarded trace divisions are slips in the code. -/
theorem c5_zero_denominator_not_finite :
    (MetricsCalculator.calculateDetailedMetrics [] []
        []).dataReconciliation.missingAgentsVal = 0 ∧
    (MetricsCalculator.calculateDetailedMetrics [] []
        []).dataReconciliation.possibleCallsPerMissingAgentVal = none ∧
    (MetricsCalculator.calculateDetailedMetrics [] []
        []).transferRateDetails.potentialUnderstatementVal = none := by
  with_unfolding_all decide

/-! ### Claim C8 — the on-queue utilization scenario -/

/-- The three status rows of the C8 scenario. -/
def c8Status : List StatusRow :=
  [{ agentName := "A", loggedIn := "1:00:00.000", onQueue := "0:30:00.000" },
   { agentName := "B", loggedIn := "2:00:00.000", onQueue := "1:00:00.000" },
   { agentName := "C", loggedIn := "0:00:00.000" }]

/-- C8: on the three-row status table with logged-in durations 1h, 2h, 0h
    and on-queue durations 30min, 1h (the zero-logged-in third row
    contributing nothing to either sum), the computed On-Queue Utilization
    is (30+60)/(60+120)*100 = 50 percent. -/
theorem c8_on_queue_utilization :
    MetricsCalculator.totalOnQueueTime c8Status = 90 ∧
    MetricsCalculator.totalLoggedTime c8Status = 180 ∧
    (MetricsCalculator.calculateDetailedMetrics [] c8Status []).onQueueUtilization = 50 := by
  with_unfolding_all decide

/-! ### Claim C1 — Total Calls -/

/-- An interaction table with one valid row whose `Abandoned` field is
    neither `"YES"` nor `"NO"`. -/
def c1BadTable : List InteractionRow :=
  [{ initialDirection := "Inbound", queue := "Q", abandoned := "" }]

/-- C1 as stated is false: on a valid interaction row whose `Abandoned`
    field is the empty string, the code's Total Calls (count of rows with
    `Abandoned === 'NO'`) is 0, while `count(valid) - count(abandoned)`
    is 1 - 0 = 1. -/
theorem c1_counterexample :
    (MetricsCalculator.calculateDetailedMetrics [] [] c1BadTable).totalCalls ≠
      (MetricsCalculator.validInteractions c1BadTable).length -
        ((MetricsCalculator.validInteractions c1BadTable).filter fun r =>
          r.abandoned == "YES").length := by
  decide

/-- C1 (amended): whenever every valid interaction row's `Abandoned`
    field is either `"YES"` or `"NO"`, the Total Calls value equals the
    number of valid interaction rows minus the number of abandoned
    (`Abandoned = "YES"`) valid interaction rows, exactly. -/
theorem c1_total_calls (perf : List PerfRow) (status : List StatusRow)
    (inter : List InteractionRow)
    (h : ∀ r ∈ MetricsCalculator.validInteractions inter,
      r.abandoned = "YES" ∨ r.abandoned = "NO") :
    (MetricsCalculator.calculateDetailedMetrics perf status inter).totalCalls =
      (MetricsCalculator.validInteractions inter).length -
        ((MetricsCalculator.validInteractions inter).filter fun r =>
          r.abandoned == "YES").length := by
  have hpq : ∀ x ∈ MetricsCalculator.validInteractions inter,
      (x.abandoned == "NO") = !(x.abandoned == "YES") := by
    intro x hx
    rcases h x hx with h1 | h1 <;> rw [h1] <;> rfl
  have key := length_filter_add_length_filter
    (fun r : InteractionRow => r.abandoned == "NO")
    (fun r : InteractionRow => r.abandoned == "YES")
    (MetricsCalculator.validInteractions inter) hpq
  show MetricsCalculator.totalCallsFromInteractions inter = _
  unfold MetricsCalculator.totalCallsFromInteractions
    MetricsCalculator.interactionsAnsweredTotal
  omega

/-- Witness for C1: on a two-row table with one answered and one
    abandoned interaction, Total Calls is 2 - 1 = 1. -/
def c1WitnessTable : List InteractionRow :=
  [{ initialDirection := "Inbound", queue := "Q", abandoned := "NO" },
   { initialDirection := "Inbound", queue := "Q", abandoned := "YES" }]

/-- Witness applying `c1_total_calls` at a concrete table whose rows all
    carry a YES/NO abandoned flag. -/
theorem c1_witness :
    (MetricsCalculator.calculateDetailedMetrics [] [] c1WitnessTable).totalCalls =
      (MetricsCalculator.validInteractions c1WitnessTable).length -
        ((MetricsCalculator.validInteractions c1WitnessTable).filter fun r =>
          r.abandoned == "YES").length :=
  c1_total_calls [] [] c1WitnessTable (by decide)

/-! ### Claim C2 — Transfer Rate and its trace -/

/-- C2: the reported Transfer Rate takes numerator and denominator from
    the agent-performance table — it is `Σ Transferred / Σ Answered × 100`
    over the valid performance rows, 0 when that denominator is 0 — and
    the transfer-rate trace records the chosen value (`reportedRate`,
    equal to the performance-based rate) together with the alternative
    value computed against the interaction-derived denominator
    (`mixedSourceRate`). -/
theorem c2_transfer_rate (perf : List PerfRow) (status : List StatusRow)
    (inter : List InteractionRow) :
    ((MetricsCalculator.totalCallsFromAgentPerformance perf = 0 →
        (MetricsCalculator.calculateDetailedMetrics perf status inter).transferRate = 0) ∧
      (MetricsCalculator.totalCallsFromAgentPerformance perf ≠ 0 →
        (MetricsCalculator.calculateDetailedMetrics perf status inter).transferRate =
          (MetricsCalculator.totalTransferred perf : ℚ)
            / (MetricsCalculator.totalCallsFromAgentPerformance perf : ℚ) * 100)) ∧
    (MetricsCalculator.calculateDetailedMetrics perf status
        inter).transferRateDetails.reportedRate =
      (MetricsCalculator.calculateDetailedMetrics perf status inter).transferRate ∧
    (MetricsCalculator.calculateDetailedMetrics perf status
        inter).transferRateDetails.agentPerformanceRate =
      (MetricsCalculator.calculateDetailedMetrics perf status inter).transferRate ∧
    (MetricsCalculator.calculateDetailedMetrics perf status
        inter).transferRateDetails.mixedSourceRate =
      (if MetricsCalculator.totalCallsFromInteractions inter = 0 then 0
       else (MetricsCalculator.totalTransferred perf : ℚ)
         / (MetricsCalculator.totalCallsFromInteractions inter : ℚ) * 100) := by
  refine ⟨⟨?_, ?_⟩, rfl, rfl, ?_⟩
  · intro h0
    show MetricsCalculator.agentPerformanceTransferRate perf = 0
    unfold MetricsCalculator.agentPerformanceTransferRate
    rw [if_neg]
    rw [h0]
    exact lt_irrefl 0
  · intro hne
    have hpos : 0 < MetricsCalculator.totalCallsFromAgentPerformance perf :=
      lt_of_le_of_ne (agentPerformanceTotal_nonneg perf) (Ne.symm hne)
    show MetricsCalculator.agentPerformanceTransferRate perf = _
    unfold MetricsCalculator.agentPerformanceTransferRate
    rw [if_pos hpos]
  · show MetricsCalculator.mixedSourceTransferRate perf inter = _
    unfold MetricsCalculator.mixedSourceTransferRate
    by_cases hz : MetricsCalculator.totalCallsFromInteractions inter = 0
    · rw [if_neg (by omega), if_pos hz]
    · rw [if_pos (Nat.pos_of_ne_zero hz), if_neg hz]

/-- One valid performance row with 4 answered calls and 1 transfer. -/
def c2Perf : List PerfRow :=
  [{ agentName := "W", answered := "4", transferred := "1" }]

/-- Witness applying `c2_transfer_rate` at a table whose answered total
    is nonzero. -/
theorem c2_witness :
    MetricsCalculator.totalCallsFromAgentPerformance c2Perf ≠ 0 ∧
    (MetricsCalculator.calculateDetailedMetrics c2Perf [] []).transferRate =
      (MetricsCalculator.totalTransferred c2Perf : ℚ)
        / (MetricsCalculator.totalCallsFromAgentPerformance c2Perf : ℚ) * 100 :=
  ⟨by decide, (c2_transfer_rate c2Perf [] []).1.2 (by decide)⟩

/-! ### Claim C3 — reconciliation discrepancy and severity -/

/-- A performance table whose valid answered total is 100. -/
def c3Perf : List PerfRow :=
  [{ agentName := "Agent", answered := "100", transferred := "0" }]

/-- An interaction table with `n` answered interactions. -/
def c3Inter (n : ℕ) : List InteractionRow :=
  List.replicate n { initialDirection := "Inbound", queue := "Q", abandoned := "NO" }

/-- C3: the reconciliation finding computes
    `discrepancyPercent = |A - B| / A * 100` when the performance total
    `A` is positive and 0 otherwise, and classifies `≤ 5` as acceptable,
    `> 5` and `≤ 30` as a warning, and `> 30` as critical; in particular
    totals 100/104 give 4 percent (acceptable), 100/120 give 20 percent
    (warning), and 100/140 give 40 percent (critical). -/
theorem c3_reconciliation :
    (∀ (perf : List PerfRow) (status : List StatusRow) (inter : List InteractionRow),
      ((0 < MetricsCalculator.agentPerformanceTotal perf →
          (MetricsCalculator.calculateDetailedMetrics perf status
              inter).dataReconciliation.discrepancyPercentVal =
            ((|MetricsCalculator.agentPerformanceTotal perf
                - (MetricsCalculator.interactionsAnsweredTotal inter : ℤ)| : ℤ) : ℚ)
              / (MetricsCalculator.agentPerformanceTotal perf : ℚ) * 100) ∧
        (¬ 0 < MetricsCalculator.agentPerformanceTotal perf →
          (MetricsCalculator.calculateDetailedMetrics perf status
              inter).dataReconciliation.discrepancyPercentVal = 0)) ∧
      (((MetricsCalculator.calculateDetailedMetrics perf status
            inter).dataReconciliation.discrepancyPercentVal ≤ 5 →
          (MetricsCalculator.calculateDetailedMetrics perf status
              inter).dataReconciliation.severity = .acceptable) ∧
        (5 < (MetricsCalculator.calculateDetailedMetrics perf status
            inter).dataReconciliation.discrepancyPercentVal →
          (MetricsCalculator.calculateDetailedMetrics perf status
              inter).dataReconciliation.discrepancyPercentVal ≤ 30 →
          (MetricsCalculator.calculateDetailedMetrics perf status
              inter).dataReconciliation.severity = .warning) ∧
        (30 < (MetricsCalculator.calculateDetailedMetrics perf status
            inter).dataReconciliation.discrepancyPercentVal →
          (MetricsCalculator.calculateDetailedMetrics perf status
              inter).dataReconciliation.severity = .critical))) ∧
    ((MetricsCalculator.calculateDetailedMetrics c3Perf []
        (c3Inter 104)).dataReconciliation.agentPerformanceCallTotal = 100 ∧
      (MetricsCalculator.calculateDetailedMetrics c3Perf []
        (c3Inter 104)).dataReconciliation.interactionsAnsweredTotalVal = 104 ∧
      (MetricsCalculator.calculateDetailedMetrics c3Perf []
        (c3Inter 104)).dataReconciliation.discrepancyPercentVal = 4 ∧
      (MetricsCalculator.calculateDetailedMetrics c3Perf []
        (c3Inter 104)).dataReconciliation.severity = .acceptable) ∧
    ((MetricsCalculator.calculateDetailedMetrics c3Perf []
        (c3Inter 120)).dataReconciliation.discrepancyPercentVal = 20 ∧
      (MetricsCalculator.calculateDetailedMetrics c3Perf []
        (c3Inter 120)).dataReconciliation.severity = .warning) ∧
    ((MetricsCalculator.calculateDetailedMetrics c3Perf []
        (c3Inter 140)).dataReconciliation.discrepancyPercentVal = 40 ∧
      (MetricsCalculator.calculateDetailedMetrics c3Perf []
        (c3Inter 140)).dataReconciliation.severity = .critical) := by
  have hgen : ∀ (perf : List PerfRow) (status : List StatusRow)
      (inter : List InteractionRow),
      ((0 < MetricsCalculator.agentPerformanceTotal perf →
          (MetricsCalculator.calculateDetailedMetrics perf status
              inter).dataReconciliation.discrepancyPercentVal =
            ((|MetricsCalculator.agentPerformanceTotal perf
                - (MetricsCalculator.interactionsAnsweredTotal inter : ℤ)| : ℤ) : ℚ)
              / (MetricsCalculator.agentPerformanceTotal perf : ℚ) * 100) ∧
        (¬ 0 < MetricsCalculator.agentPerformanceTotal perf →
          (MetricsCalculator.calculateDetailedMetrics perf status
              inter).dataReconciliation.discrepancyPercentVal = 0)) ∧
      (((MetricsCalculator.calculateDetailedMetrics perf status
            inter).dataReconciliation.discrepancyPercentVal ≤ 5 →
          (MetricsCalculator.calculateDetailedMetrics perf status
              inter).dataReconciliation.severity = .acceptable) ∧
        (5 < (MetricsCalculator.calculateDetailedMetrics perf status
            inter).dataReconciliation.discrepancyPercentVal →
          (MetricsCalculator.calculateDetailedMetrics perf status
              inter).dataReconciliation.discrepancyPercentVal ≤ 30 →
          (MetricsCalculator.calculateDetailedMetrics perf status
              inter).dataReconciliation.severity = .warning) ∧
        (30 < (MetricsCalculator.calculateDetailedMetrics perf status
            inter).dataReconciliation.discrepancyPercentVal →
          (MetricsCalculator.calculateDetailedMetrics perf status
              inter).dataReconciliation.severity = .critical)) := by
    intro perf status inter
    constructor
    · constructor
      · intro hpos
        show MetricsCalculator.discrepancyPercent perf inter = _
        unfold MetricsCalculator.discrepancyPercent MetricsCalculator.callDiscrepancy
        rw [if_pos hpos]
      · intro hneg
        show MetricsCalculator.discrepancyPercent perf inter = 0
        unfold MetricsCalculator.discrepancyPercent
        rw [if_neg hneg]
    · refine ⟨?_, ?_, ?_⟩
      · intro h5
        show MetricsCalculator.reconciliationSeverity
          (MetricsCalculator.discrepancyPercent perf inter) = _
        unfold MetricsCalculator.reconciliationSeverity
        have hd5 : MetricsCalculator.discrepancyPercent perf inter ≤ 5 := h5
        rw [if_neg (by linarith), if_neg (by linarith)]
      · intro h5 h30
        show MetricsCalculator.reconciliationSeverity
          (MetricsCalculator.discrepancyPercent perf inter) = _
        unfold MetricsCalculator.reconciliationSeverity
        have hd5 : (5 : ℚ) < MetricsCalculator.discrepancyPercent perf inter := h5
        have hd30 : MetricsCalculator.discrepancyPercent perf inter ≤ 30 := h30
        rw [if_neg (by linarith), if_pos hd5]
      · intro h30
        show MetricsCalculator.reconciliationSeverity
          (MetricsCalculator.discrepancyPercent perf inter) = _
        unfold MetricsCalculator.reconciliationSeverity
        have hd30 : (30 : ℚ) < MetricsCalculator.discrepancyPercent perf inter := h30
        rw [if_pos hd30]
  have hA : MetricsCalculator.agentPerformanceTotal c3Perf = 100 := by decide
  have hB104 : MetricsCalculator.interactionsAnsweredTotal (c3Inter 104) = 104 := by decide
  have hB120 : MetricsCalculator.interactionsAnsweredTotal (c3Inter 120) = 120 := by decide
  have hB140 : MetricsCalculator.interactionsAnsweredTotal (c3Inter 140) = 140 := by decide
  have hd104 : (MetricsCalculator.calculateDetailedMetrics c3Perf []
      (c3Inter 104)).dataReconciliation.discrepancyPercentVal = 4 := by
    have := (hgen c3Perf [] (c3Inter 104)).1.1 (by rw [hA]; norm_num)
    rw [hA, hB104] at this
    rw [this]
    norm_num
  have hd120 : (MetricsCalculator.calculateDetailedMetrics c3Perf []
      (c3Inter 120)).dataReconciliation.discrepancyPercentVal = 20 := by
    have := (hgen c3Perf [] (c3Inter 120)).1.1 (by rw [hA]; norm_num)
    rw [hA, hB120] at this
    rw [this]
    norm_num
  have hd140 : (MetricsCalculator.calculateDetailedMetrics c3Perf []
      (c3Inter 140)).dataReconciliation.discrepancyPercentVal = 40 := by
    have := (hgen c3Perf [] (c3Inter 140)).1.1 (by rw [hA]; norm_num)
    rw [hA, hB140] at this
    rw [this]
    norm_num
  refine ⟨hgen, ⟨?_, ?_, hd104, ?_⟩, ⟨hd120, ?_⟩, ⟨hd140, ?_⟩⟩
  · exact hA
  · exact hB104
  · exact (hgen c3Perf [] (c3Inter 104)).2.1 (by rw [hd104]; norm_num)
  · exact (hgen c3Perf [] (c3Inter 120)).2.2.1 (by rw [hd120]; norm_num)
      (by rw [hd120]; norm_num)
  · exact (hgen c3Perf [] (c3Inter 140)).2.2.2 (by rw [hd140]; norm_num)

/-- A one-row performance table with answered total 1 and an interaction
    table with 2 answered rows: discrepancy 100 percent, critical. -/
def c3SmallInter : List InteractionRow :=
  [{ initialDirection := "Inbound", queue := "Q", abandoned := "NO" },
   { initialDirection := "Inbound", queue := "Q", abandoned := "NO" }]

/-- One-row performance table whose answered total is 1. -/
def c3SmallPerf : List PerfRow :=
  [{ agentName := "Agent", answered := "1", transferred := "0" }]

/-- Witness applying `c3_reconciliation`'s universal part at a concrete
    input with each hypothesis discharged. -/
theorem c3_witness :
    (MetricsCalculator.calculateDetailedMetrics c3SmallPerf []
        c3SmallInter).dataReconciliation.severity = .critical :=
  (c3_reconciliation.1 c3SmallPerf [] c3SmallInter).2.2.2
    (by with_unfolding_all decide)

/-! ### Claim C6 — the performance-row filter -/

/-- A non-template performance row whose `Answered` parses as the
    non-negative integer 0. -/
def c6Row : PerfRow := { agentName := "Alice", answered := "0", transferred := "0" }

/-- C6 as stated is false: the row with `Answered = "0"` parses as the
    non-negative integer 0 and is not a template row, yet the filter
    excludes it (the code requires `parseInt(agent.Answered) > 0`). -/
theorem c6_counterexample :
    jsParseInt c6Row.answered = some 0 ∧
    strContains c6Row.agentName "Template" = false ∧
    c6Row ∉ MetricsCalculator.validAgentPerformance [c6Row] := by
  decide

/-- C6 (amended): a performance row is kept by the filter iff it is in
    the table, its `Answered` parses as a *strictly positive* integer,
    and its agent name does not mark it as a template; in particular rows
    whose `Answered` parses to 0 are excluded along with unparseable and
    template rows. -/
theorem c6_valid_performance_filter (rows : List PerfRow) (r : PerfRow) :
    r ∈ MetricsCalculator.validAgentPerformance rows ↔
      r ∈ rows ∧ (∃ n : ℤ, jsParseInt r.answered = some n ∧ 0 < n)
        ∧ strContains r.agentName "Template" = false := by
  unfold MetricsCalculator.validAgentPerformance
  rw [List.mem_filter]
  constructor
  · rintro ⟨hm, hv⟩
    rw [Bool.and_eq_true] at hv
    obtain ⟨ha, ht⟩ := hv
    unfold MetricsCalculator.hasAnsweredPos at ha
    rw [Bool.and_eq_true] at ha
    obtain ⟨-, ha2⟩ := ha
    refine ⟨hm, ?_, ?_⟩
    · cases hp : jsParseInt r.answered with
      | none => rw [hp] at ha2; simp at ha2
      | some n =>
          rw [hp] at ha2
          simp only [decide_eq_true_eq] at ha2
          exact ⟨n, rfl, ha2⟩
    · unfold MetricsCalculator.notTemplatePerf at ht
      simpa using ht
  · rintro ⟨hm, ⟨n, hp, hn⟩, ht⟩
    refine ⟨hm, ?_⟩
    rw [Bool.and_eq_true]
    refine ⟨?_, ?_⟩
    · unfold MetricsCalculator.hasAnsweredPos
      rw [Bool.and_eq_true]
      refine ⟨?_, ?_⟩
      · have hne : r.answered ≠ "" := by
          intro he
          rw [he] at hp
          have h0 : jsParseInt "" = none := by decide
          rw [h0] at hp
          exact Option.noConfusion hp
        simpa using hne
      · rw [hp]
        simpa using hn
    · unfold MetricsCalculator.notTemplatePerf
      simpa using ht

/-! ### Claim C7 — abandonment-rate bounds -/

/-- C7: the Abandonment Rate always lies in [0, 100], and it is 0 when
    the valid interaction set contains no inbound interactions. -/
theorem c7_abandonment_rate_bounds (perf : List PerfRow) (status : List StatusRow)
    (inter : List InteractionRow) :
    (0 ≤ (MetricsCalculator.calculateDetailedMetrics perf status inter).abandonmentRate ∧
      (MetricsCalculator.calculateDetailedMetrics perf status inter).abandonmentRate ≤ 100) ∧
    (MetricsCalculator.inboundCalls inter = [] →
      (MetricsCalculator.calculateDetailedMetrics perf status inter).abandonmentRate = 0) := by
  have habr : (MetricsCalculator.calculateDetailedMetrics perf status inter).abandonmentRate =
      MetricsCalculator.abandonmentRate inter := rfl
  constructor
  · rw [habr]
    unfold MetricsCalculator.abandonmentRate
    split_ifs with h
    · have hle : ((MetricsCalculator.abandonedCalls inter).length : ℚ) ≤
          ((MetricsCalculator.inboundCalls inter).length : ℚ) := by
        exact_mod_cast List.length_filter_le _ (MetricsCalculator.inboundCalls inter)
      have hpos : (0 : ℚ) < ((MetricsCalculator.inboundCalls inter).length : ℚ) := by
        exact_mod_cast h
      constructor
      · apply mul_nonneg _ (by norm_num)
        exact div_nonneg (Nat.cast_nonneg _) (Nat.cast_nonneg _)
      · have hdiv : ((MetricsCalculator.abandonedCalls inter).length : ℚ)
            / ((MetricsCalculator.inboundCalls inter).length : ℚ) ≤ 1 :=
          (div_le_one hpos).mpr hle
        nlinarith
    · exact ⟨le_refl 0, by norm_num⟩
  · intro h0
    rw [habr]
    unfold MetricsCalculator.abandonmentRate
    rw [if_neg]
    rw [h0]
    simp

/-- Witness applying `c7_abandonment_rate_bounds` on empty tables, where
    there are no inbound interactions. -/
theorem c7_witness :
    (MetricsCalculator.calculateDetailedMetrics [] [] []).abandonmentRate = 0 :=
  (c7_abandonment_rate_bounds [] [] []).2 rfl

/-! ### Claim C9 — Dashboard vs calculator abandonment rate -/

/-- An interaction row with a direction but an empty queue: the Dashboard
    filter keeps it, the calculator filter drops it. -/
def c9Row : InteractionRow :=
  { initialDirection := "Inbound", queue := "", abandoned := "YES" }

/-- C9 as stated is false: on a one-row table whose row has
    `Initial Direction = "Inbound"` but an empty `Queue`, the Dashboard
    computes a 100 percent abandonment rate while the calculator computes
    0 — the two components do not use the same filtered interaction row
    set. -/
theorem c9_counterexample :
    Dashboard.abandonmentRate [c9Row] ≠
      (MetricsCalculator.calculateDetailedMetrics [] [] [c9Row]).abandonmentRate := by
  with_unfolding_all decide

/-- C9 (amended): whenever every interaction row that has a non-empty
    `Initial Direction` also has a non-empty `Queue`, the two filtered
    row sets coincide and the Dashboard's inline abandonment rate equals
    the calculator's. -/
theorem c9_dashboard_agreement (perf : List PerfRow) (status : List StatusRow)
    (inter : List InteractionRow)
    (h : ∀ r ∈ inter, r.initialDirection ≠ "" → r.queue ≠ "") :
    Dashboard.abandonmentRate inter =
      (MetricsCalculator.calculateDetailedMetrics perf status inter).abandonmentRate := by
  have hfilter : Dashboard.validInteractions inter =
      MetricsCalculator.validInteractions inter := by
    unfold Dashboard.validInteractions MetricsCalculator.validInteractions
    apply List.filter_congr
    intro x hx
    by_cases hd : x.initialDirection = ""
    · simp [hd]
    · have hq := h x hx hd
      simp [hd, hq]
  have hin : Dashboard.inboundCalls inter = MetricsCalculator.inboundCalls inter := by
    unfold Dashboard.inboundCalls MetricsCalculator.inboundCalls
    rw [hfilter]
  have hab : Dashboard.abandonedCalls inter = MetricsCalculator.abandonedCalls inter := by
    unfold Dashboard.abandonedCalls MetricsCalculator.abandonedCalls
    rw [hin]
  show _ = MetricsCalculator.abandonmentRate inter
  unfold Dashboard.abandonmentRate MetricsCalculator.abandonmentRate
  rw [hin, hab]

/-- A table on which every direction-bearing row also carries a queue. -/
def c9WitnessTable : List InteractionRow :=
  [{ initialDirection := "Inbound", queue := "Q", abandoned := "YES" }]

/-- Witness applying `c9_dashboard_agreement` at a concrete table
    satisfying its hypothesis. -/
theorem c9_witness :
    Dashboard.abandonmentRate c9WitnessTable =
      (MetricsCalculator.calculateDetailedMetrics [] [] c9WitnessTable).abandonmentRate :=
  c9_dashboard_agreement [] [] c9WitnessTable (by decide)

/-! ### Claim C10 — totality of the whole computation -/

/-- Performance rows with a template name, an unparseable `Answered`, and
    a negative `Answered`. -/
def c10Perf : List PerfRow :=
  [{ agentName := "Template Agent", answered := "abc", transferred := "5" },
   { agentName := "B", answered := "-3", transferred := "" }]

/-- A status row whose `Logged In` is junk text. -/
def c10Status : List StatusRow :=
  [{ agentName := "C", loggedIn := "junk", onQueue := "1:00:00.000" }]

/-- An interaction row with a missing queue, a non-YES/NO abandoned flag
    and a malformed duration. -/
def c10Inter : List InteractionRow :=
  [{ initialDirection := "Weird", queue := "", abandoned := "maybe",
     totalQueue := ":::" }]

/-- C10: the embedded `calculateDetailedMetrics` is a total function —
    on any input tables it returns a complete `DetailedMetrics` record
    (it is a Lean `def`, so no exception can arise), and on a table of
    malformed records (missing fields, junk numbers, junk durations) it
    degrades gracefully, every KPI evaluating to 0. -/
theorem c10_totality :
    (∀ (perf : List PerfRow) (status : List StatusRow) (inter : List InteractionRow),
      ∃ m : MetricsCalculator.DetailedMetrics,
        MetricsCalculator.calculateDetailedMetrics perf status inter = m) ∧
    (MetricsCalculator.calculateDetailedMetrics c10Perf c10Status c10Inter).totalCalls = 0 ∧
    (MetricsCalculator.calculateDetailedMetrics c10Perf c10Status c10Inter).transferRate = 0 ∧
    (MetricsCalculator.calculateDetailedMetrics c10Perf c10Status
        c10Inter).productiveUtilization = 0 ∧
    (MetricsCalculator.calculateDetailedMetrics c10Perf c10Status
        c10Inter).onQueueUtilization = 0 ∧
    (MetricsCalculator.calculateDetailedMetrics c10Perf c10Status
        c10Inter).avgSpeedOfAnswer = 0 ∧
    (MetricsCalculator.calculateDetailedMetrics c10Perf c10Status
        c10Inter).abandonmentRate = 0 ∧
    (MetricsCalculator.calculateDetailedMetrics c10Perf c10Status
        c10Inter).avgHandleTime = 0 ∧
    (MetricsCalculator.calculateDetailedMetrics c10Perf c10Status c10Inter).shrinkage = 0 := by
  refine ⟨fun perf status inter => ⟨_, rfl⟩, ?_⟩
  with_unfolding_all decide
